import Mathlib

/-!
Shallow embedding of the snowfight-server core (game object model, spatial
grid, worker tick loops and message handlers), together with theorems
checking the natural-language specification against it.

Doubles are modelled as exact rationals; C++ `static_cast<int>` and
integer division are modelled by truncation toward zero.  Wall-clock reads
(`std::chrono::system_clock::now()`) are modelled as an explicit `now`
parameter of the embedded function.
-/

namespace Snowfight

/-- Pointers (`shared_ptr<GameObject>` identities) are modelled as naturals. -/
abbrev Ptr := Nat

/-- C++ integer division truncates toward zero (`Int.tdiv`). -/
def cppDiv (a b : Int) : Int := Int.tdiv a b

/-- `static_cast<int>(d)` on a double: truncation toward zero. -/
def cppTrunc (q : ℚ) : Int := Int.tdiv q.num (q.den : Int)

/-- The character list of the default string `"unknown"`. -/
def unknownStr : List Char := ['u', 'n', 'k', 'n', 'o', 'w', 'n']

/-- The character list of the message type `"hit"`. -/
def hitStr : List Char := ['h', 'i', 't']

/--
`GameObject` from `game_object.h`: one record for the whole class
hierarchy.  `isSnowball` records the dynamic class, which decides the
virtual `get_cur_x`/`get_cur_y` dispatch (the base class returns the
stored coordinate, `Snowball` overrides it with the projection).
Defaults are the ones of the C++ default constructor.
-/
structure GameObject where
  type : List Char := unknownStr
  id : List Char := unknownStr
  username : List Char := unknownStr
  x : ℚ := 0
  y : ℚ := 0
  vx : ℚ := 0
  vy : ℚ := 0
  size : ℚ := 1
  row : Int := 0
  col : Int := 0
  health : Int := 100
  damage : Int := 0
  time_update : Int := 0
  life_length : Int := 1000
  is_dead : Bool := false
  charging : Bool := false
  isSnowball : Bool := false
  deriving DecidableEq, Repr

/-- Virtual `get_cur_x`: the base class returns `x_`; `Snowball` overrides
with `get_x() + get_vx() * (elapsed_time / 1000.0)`. -/
def get_cur_x (o : GameObject) (current_time : Int) : ℚ :=
  if o.isSnowball then o.x + o.vx * (((current_time - o.time_update : Int) : ℚ) / 1000)
  else o.x

/-- Virtual `get_cur_y`, symmetric to `get_cur_x`. -/
def get_cur_y (o : GameObject) (current_time : Int) : ℚ :=
  if o.isSnowball then o.y + o.vy * (((current_time - o.time_update : Int) : ℚ) / 1000)
  else o.y

/-- `GameObject::Expired`: `current_time - time_update > life_length`. -/
def GameObject.Expired (o : GameObject) (current_time : Int) : Bool :=
  current_time - o.time_update > o.life_length

/--
`GameObject::Collide(obj)` from `game_object.cpp`: returns false at once if
self is already dead; otherwise compares the squared distance of the two
projected positions at the sampled wall clock (`current_time` here) with
the squared sum of sizes, strictly.  On a hit it marks self dead and
re-anchors `time_update`/`life_length` to start the 1 s death grace
period.  Returns the updated self and the boolean result.
-/
def GameObject.Collide (self : GameObject) (obj : GameObject) (current_time : Int) :
    GameObject × Bool :=
  if self.is_dead then (self, false)
  else
    let x_diff := get_cur_x obj current_time - get_cur_x self current_time
    let y_diff := get_cur_y obj current_time - get_cur_y self current_time
    let distance_square := x_diff * x_diff + y_diff * y_diff
    let size_sum := obj.size + self.size
    if distance_square < size_sum * size_sum then
      ({ self with is_dead := true, time_update := current_time, life_length := 1000 }, true)
    else (self, false)

/-- An outbound frame: message type, the object state it encodes, and the
wall-clock instant it was encoded at. -/
structure Frame where
  messageType : List Char
  obj : GameObject
  time : Int
  deriving DecidableEq, Repr

/--
`GameObject::Hurt(ws, damage)`: clamp `health` at 0; if health is 0 after
the update, mark dead and re-anchor for the grace period at the sampled
wall clock (`now` here); unconditionally send one `"hit"` frame with the
updated state.  Returns the updated self and the frames sent.
-/
def GameObject.Hurt (self : GameObject) (damage : Int) (now : Int) :
    GameObject × List Frame :=
  let h := max (self.health - damage) 0
  let self1 := { self with health := h }
  let self2 :=
    if self1.health = 0 then
      { self1 with is_dead := true, time_update := now, life_length := 1000 }
    else self1
  (self2, [⟨hitStr, self2, now⟩])

/-- `std::string::find(c)` on a character list: index of first occurrence. -/
def strFind (s : List Char) (c : Char) : Option Nat :=
  s.findIdx? (fun a => a = c)

/-- `std::string::find(c, pos)`: first occurrence at index `pos` or later. -/
def strFindFrom (s : List Char) (c : Char) (pos : Nat) : Option Nat :=
  ((s.drop pos).findIdx? (fun a => a = c)).map (fun i => i + pos)

/-- `std::string::substr(pos, len)`. -/
def substr (s : List Char) (pos len : Nat) : List Char :=
  (s.drop pos).take len

/-- The sentinel string `"not_snowball"`. -/
def notSnowballStr : List Char :=
  ['n', 'o', 't', '_', 's', 'n', 'o', 'w', 'b', 'a', 'l', 'l']

/--
`ExtractPlayerId` from `server_worker.cpp`: locate the first underscore and
the next underscore after it; if either search fails return the sentinel
`"not_snowball"`, otherwise return the substring strictly between them.
-/
def ExtractPlayerId (snowballId : List Char) : List Char :=
  match strFind snowballId '_' with
  | none => notSnowballStr
  | some firstUnderscore =>
    match strFindFrom snowballId '_' (firstUnderscore + 1) with
    | none => notSnowballStr
    | some secondUnderscore =>
      substr snowballId (firstUnderscore + 1) (secondUnderscore - firstUnderscore - 1)

/-- The characters of the id prefix `"snowball_"`. -/
def snowballPrefixStr : List Char := ['s', 'n', 'o', 'w', 'b', 'a', 'l', 'l', '_']

/-- The canonical snowball id shape `snowball_<X>_<k>`. -/
def canonicalId (ownerId seq : List Char) : List Char :=
  snowballPrefixStr ++ ownerId ++ '_' :: seq

/-! ## The spatial grid (`grid.h` / `grid.cpp`)

Cells hold `shared_ptr<GameObject>` references; here a cell is the list of
pointers it contains (an `unordered_set`, so insertion is skipped when the
pointer is already present and erasure removes it).  Grid operations that
mutate the pointed-to object return the updated object alongside the grid;
the caller stores it back wherever it keeps the object. -/

abbrev Cells := List (List (List Ptr))

/-- Read `cells_[r][c]` (out-of-range reads yield the empty cell; the code
always bounds-checks first). -/
def getCell (cells : Cells) (r c : Nat) : List Ptr :=
  (cells.getD r []).getD c []

/-- Write `cells_[r][c]`. -/
def setCell (cells : Cells) (r c : Nat) (v : List Ptr) : Cells :=
  cells.set r ((cells.getD r []).set c v)

/-- `Cell::Insert`: `unordered_set::insert`, a no-op when already present. -/
def cellInsert (p : Ptr) (cell : List Ptr) : List Ptr :=
  if p ∈ cell then cell else cell ++ [p]

/-- `Cell::Remove`: `unordered_set::erase`. -/
def cellErase (p : Ptr) (cell : List Ptr) : List Ptr :=
  cell.filter (fun q => q ≠ p)

structure Grid where
  height : Int
  width : Int
  cell_size : Int
  rows : Int
  cols : Int
  cells : Cells
  deriving DecidableEq, Repr

/-- The `Grid` constructor: `rows_ = (height-1)/cell_size + 1`, likewise
for `cols_`, with all cells empty. -/
def mkGrid (height width cell_size : Int) : Grid :=
  let rows := cppDiv (height - 1) cell_size + 1
  let cols := cppDiv (width - 1) cell_size + 1
  { height := height, width := width, cell_size := cell_size,
    rows := rows, cols := cols,
    cells := List.replicate rows.toNat (List.replicate cols.toNat []) }

/--
`Grid::Insert`: compute the cell from the stored coordinates by
int-truncation and integer division; silently no-op when the cell is out
of range, otherwise record `row`/`col` on the object and add the pointer
to the cell.
-/
def Grid.Insert (g : Grid) (p : Ptr) (obj : GameObject) : Grid × GameObject :=
  let row := cppDiv (cppTrunc obj.y) g.cell_size
  let col := cppDiv (cppTrunc obj.x) g.cell_size
  if row ≥ g.rows ∨ col ≥ g.cols ∨ row < 0 ∨ col < 0 then (g, obj)
  else
    let obj1 := { obj with row := row, col := col }
    let newCell := cellInsert p (getCell g.cells row.toNat col.toNat)
    ({ g with cells := setCell g.cells row.toNat col.toNat newCell }, obj1)

/-- `Grid::Remove`: erase from the cell recorded in `obj.row, obj.col`
(not recomputed); no-op when that cell is out of range. -/
def Grid.Remove (g : Grid) (p : Ptr) (obj : GameObject) : Grid :=
  let row := obj.row
  let col := obj.col
  if row ≥ g.rows ∨ col ≥ g.cols ∨ row < 0 ∨ col < 0 then g
  else
    let newCell := cellErase p (getCell g.cells row.toNat col.toNat)
    { g with cells := setCell g.cells row.toNat col.toNat newCell }

/--
`Grid::Update`: project to the current position, truncate to ints, compute
the new cell; no-op if the new cell is out of range or equal to the
recorded one; otherwise remove from the old cell, write the truncated
projected position back, shorten `life_length` by the elapsed time,
re-anchor `time_update`, and insert into the new cell.
-/
def Grid.Update (g : Grid) (p : Ptr) (obj : GameObject) (current_time : Int) :
    Grid × GameObject :=
  let old_row := obj.row
  let old_col := obj.col
  let cur_y := cppTrunc (get_cur_y obj current_time)
  let cur_x := cppTrunc (get_cur_x obj current_time)
  let new_row := cppDiv cur_y g.cell_size
  let new_col := cppDiv cur_x g.cell_size
  if new_row < 0 ∨ new_col < 0 ∨ new_row ≥ g.rows ∨ new_col ≥ g.cols then (g, obj)
  else if old_row ≠ new_row ∨ old_col ≠ new_col then
    let g1 := g.Remove p obj
    let obj1 := { obj with row := new_row, col := new_col,
                           x := (cur_x : ℚ), y := (cur_y : ℚ),
                           life_length := obj.life_length - (current_time - obj.time_update),
                           time_update := current_time }
    g1.Insert p obj1
  else (g, obj)

/-- The list of integers `lo, lo+1, ..., hi` (empty when `hi < lo`),
modelling a C++ `for (i = lo; i <= hi; i++)` loop. -/
def intRange (lo hi : Int) : List Int :=
  (List.range (hi + 1 - lo).toNat).map (fun (i : Nat) => lo + (i : Int))

/--
`Grid::Search`: iterate the cell rectangle obtained by int-truncating and
dividing the four query coordinates, skipping out-of-range cells, and
concatenate the cell memberships.
-/
def Grid.Search (g : Grid) (lower_y upper_y left_x right_x : ℚ) : List Ptr :=
  let lower_row := cppDiv (cppTrunc lower_y) g.cell_size
  let upper_row := cppDiv (cppTrunc upper_y) g.cell_size
  let left_col := cppDiv (cppTrunc left_x) g.cell_size
  let right_col := cppDiv (cppTrunc right_x) g.cell_size
  (intRange lower_row upper_row).flatMap (fun r =>
    (intRange left_col right_col).flatMap (fun c =>
      if r ≥ g.rows ∨ c ≥ g.cols ∨ r < 0 ∨ c < 0 then []
      else getCell g.cells r.toNat c.toNat))

/-- `true` iff the pointer sits in some cell of the grid. -/
def gridHasPtr (g : Grid) (p : Ptr) : Bool :=
  g.cells.any (fun rowList => rowList.any (fun cell => cell.contains p))

/-- Well-formedness of a grid: positive dimensions, the row and column
counts of the constructor, and a cell matrix of that shape. -/
def Grid.WF (g : Grid) : Prop :=
  0 < g.cell_size ∧ 0 < g.height ∧ 0 < g.width ∧
  g.rows = cppDiv (g.height - 1) g.cell_size + 1 ∧
  g.cols = cppDiv (g.width - 1) g.cell_size + 1 ∧
  g.cells.length = g.rows.toNat ∧
  ∀ rowList ∈ g.cells, rowList.length = g.cols.toNat

/-! ## The worker (`server_worker.cpp`)

A connection is identified with the pointer of the `Player` attached to
its user data.  `Heap` maps pointers to the current state of the objects
they reference, modelling the shared mutable `shared_ptr` targets. -/

namespace constants

def FIXED_VIEW_WIDTH : ℚ := 1600

def FIXED_VIEW_HEIGHT : ℚ := 900

end constants

abbrev Heap := List (Ptr × GameObject)

/-- Dereference a pointer (connections always carry a live player, so the
default object stands for the unreachable null case). -/
def heapGet (h : Heap) (p : Ptr) : GameObject :=
  (List.lookup p h).getD {}

/-- Store through a pointer. -/
def heapSet (h : Heap) (p : Ptr) (o : GameObject) : Heap :=
  h.map (fun e => if e.1 = p then (p, o) else e)

/--
A decoded join message.  `message.value(k, default)` is an `Option`
field; `pos` is present exactly when the JSON has `position.x` and
`position.y`.
-/
structure JoinMsg where
  id : Option (List Char) := none
  username : Option (List Char) := none
  health : Option Int := none
  size : Option ℚ := none
  timeUpdate : Option Int := none
  pos : Option (ℚ × ℚ) := none
  deriving DecidableEq, Repr

/--
`ServerWorker::handleJoin`: set `id` and `username` first, then read the
remaining values, drop the frame if the position is out of the world
bounds (note `>` against width/height, not `≥`), otherwise populate the
player and insert it into the grid.
-/
def handleJoin (g : Grid) (pptr : Ptr) (player : GameObject) (message : JoinMsg) :
    Grid × GameObject :=
  let player1 := { player with id := message.id.getD unknownStr,
                               username := message.username.getD unknownStr }
  let x : ℚ := (message.pos.map Prod.fst).getD 0
  let y : ℚ := (message.pos.map Prod.snd).getD 0
  let health := message.health.getD 100
  let size := message.size.getD 20
  let time_update := message.timeUpdate.getD 0
  if x < 0 ∨ y < 0 ∨ x > (g.width : ℚ) ∨ y > (g.height : ℚ) then (g, player1)
  else
    let player2 := { player1 with health := health, x := x, y := y, size := size,
                                  time_update := time_update,
                                  life_length := 4000000000000000000 }
    g.Insert pptr player2

/-- One step of the neighbor loop of `UpdatePlayerView`: running state is
the heap, the collected batch (`valid_objects`) and the sent hit frames. -/
def viewStep (c : Ptr) (current_time : Int) (st : Heap × List Ptr × List Frame)
    (optr : Ptr) : Heap × List Ptr × List Frame :=
  let (heap, valid, frames) := st
  let obj := heapGet heap optr
  let player := heapGet heap c
  if obj.id = player.id then (heap, valid, frames)
  else if obj.is_dead ∧ obj.Expired current_time then (heap, valid, frames)
  else if obj.damage ≠ 0 ∧ ExtractPlayerId obj.id ≠ player.id then
    let res := obj.Collide player current_time
    let heap1 := heapSet heap optr res.1
    if res.2 then
      let pl := heapGet heap1 c
      let hres := pl.Hurt obj.damage current_time
      (heapSet heap1 c hres.1, valid, frames ++ hres.2)
    else (heap1, valid ++ [optr], frames)
  else (heap, valid ++ [optr], frames)

/--
`UpdatePlayerView`: build the fixed view window around the player, query
the grid, then walk the neighbors skipping the player itself and
dead-and-expired entries, resolving collisions of damaging objects whose
extracted owner differs from the player, and hurting the player on a hit;
everything else goes into the batch, which is always sent as one
`batch_update` frame.  Returns the heap, the hit frames and the batch.
-/
def UpdatePlayerView (g : Grid) (heap : Heap) (c : Ptr) (current_time : Int) :
    Heap × List Ptr × List Frame :=
  let player := heapGet heap c
  let lower_y := player.y - constants.FIXED_VIEW_HEIGHT
  let upper_y := lower_y + 2 * constants.FIXED_VIEW_HEIGHT
  let left_x := player.x - constants.FIXED_VIEW_WIDTH
  let right_x := left_x + 2 * constants.FIXED_VIEW_WIDTH
  let neighbors := g.Search lower_y upper_y left_x right_x
  neighbors.foldl (viewStep c current_time) (heap, [], [])

/-- The whole worker-visible state one view tick acts on, plus the tick's
outputs: the connections that were sent their batch this tick. -/
structure WorkerTick where
  grid : Grid
  heap : Heap
  clients : List Ptr
  processed : List Ptr
  deriving Repr

/-- The loop body of `HandleThreadClients` over `clients_copy`: a dead
player is erased from the client set and the function returns; an expired
player is removed from the grid; any other connection gets its view
update. -/
def handleClientsLoop (st : WorkerTick) (copy : List Ptr) (current_time : Int) :
    WorkerTick :=
  match copy with
  | [] => st
  | c :: rest =>
    let player := heapGet st.heap c
    if player.is_dead then
      { st with clients := st.clients.filter (fun d => d ≠ c) }
    else if player.Expired current_time then
      handleClientsLoop { st with grid := st.grid.Remove c player } rest current_time
    else
      handleClientsLoop
        { st with heap := (UpdatePlayerView st.grid st.heap c current_time).1,
                  processed := st.processed ++ [c] }
        rest current_time

/-- `HandleThreadClients`: snapshot the client set and run the loop. -/
def HandleThreadClients (g : Grid) (heap : Heap) (clients : List Ptr)
    (current_time : Int) : WorkerTick :=
  handleClientsLoop { grid := g, heap := heap, clients := clients, processed := [] }
    clients current_time

/--
`HandleThreadObjects`: for every entry of the worker's object map, a null
or dead or expired object is removed from the grid (null ones only from
the map) and collected for erasure from the map; live objects get a grid
update.  The map is an association list in iteration order.
-/
def HandleThreadObjects (g : Grid) (objects : List (Ptr × Option GameObject))
    (current_time : Int) : Grid × List (Ptr × Option GameObject) :=
  match objects with
  | [] => (g, [])
  | (p, entry) :: rest =>
    match entry with
    | none => HandleThreadObjects g rest current_time
    | some obj =>
      if obj.is_dead then
        HandleThreadObjects (g.Remove p obj) rest current_time
      else if obj.Expired current_time then
        HandleThreadObjects (g.Remove p obj) rest current_time
      else
        let r := g.Update p obj current_time
        let (g1, rest1) := HandleThreadObjects r.1 rest current_time
        (g1, (p, some r.2) :: rest1)

/-! ## Helper lemmas about `Collide` -/

/-- The squared distance used by `Collide`. -/
def collideDistSq (self obj : GameObject) (t : Int) : ℚ :=
  (get_cur_x obj t - get_cur_x self t) * (get_cur_x obj t - get_cur_x self t) +
    (get_cur_y obj t - get_cur_y self t) * (get_cur_y obj t - get_cur_y self t)

/-- The squared size sum used by `Collide`. -/
def collideSizeSq (self obj : GameObject) : ℚ :=
  (obj.size + self.size) * (obj.size + self.size)

lemma collide_eq_ite (self obj : GameObject) (t : Int) :
    self.Collide obj t =
      if self.is_dead then (self, false)
      else if collideDistSq self obj t < collideSizeSq self obj then
        ({ self with is_dead := true, time_update := t, life_length := 1000 }, true)
      else (self, false) := rfl

lemma collide_of_dead (self obj : GameObject) (t : Int) (h : self.is_dead = true) :
    self.Collide obj t = (self, false) := by
  rw [collide_eq_ite]; simp [h]

lemma collide_false_eq (self obj : GameObject) (t : Int)
    (h : (self.Collide obj t).2 = false) : (self.Collide obj t).1 = self := by
  rw [collide_eq_ite] at *
  split_ifs at * <;> simp_all

lemma collide_true_dead (self obj : GameObject) (t : Int)
    (h : (self.Collide obj t).2 = true) : (self.Collide obj t).1.is_dead = true := by
  rw [collide_eq_ite] at *
  split_ifs at *
  simp_all

/-- One collision test in a sequence: thread self's state and count hits. -/
def collideStep (acc : GameObject × Nat) (oc : GameObject × Int) :
    GameObject × Nat :=
  let r := acc.1.Collide oc.1 oc.2
  (r.1, acc.2 + (if r.2 then 1 else 0))

/-- A sequence of collision tests against `self`, threading its state, and
the number of tests that came back true. -/
def collideMany (self : GameObject) (others : List (GameObject × Int)) :
    GameObject × Nat :=
  others.foldl collideStep (self, 0)

lemma collideStep_eq (acc : GameObject × Nat) (oc : GameObject × Int) :
    collideStep acc oc =
      ((acc.1.Collide oc.1 oc.2).1,
        acc.2 + (if (acc.1.Collide oc.1 oc.2).2 then 1 else 0)) := rfl

lemma collideMany_loop_bound : ∀ (others : List (GameObject × Int))
    (self : GameObject) (n : Nat),
    (List.foldl collideStep (self, n) others).2 ≤
      n + (if self.is_dead then 0 else 1) := by
  intro others
  induction others with
  | nil => intro self n; simp
  | cons oc rest ih =>
    intro self n
    rw [List.foldl_cons, collideStep_eq]
    by_cases hd : self.is_dead
    · rw [collide_of_dead self oc.1 oc.2 hd]
      have h2 := ih self n
      simp only [hd, if_true] at h2 ⊢
      simpa using h2
    · cases hr : (self.Collide oc.1 oc.2).2 with
      | false =>
        show (List.foldl collideStep ((self.Collide oc.1 oc.2).1, n + 0) rest).2 ≤
          n + if self.is_dead = true then 0 else 1
        rw [collide_false_eq self oc.1 oc.2 hr]
        have h2 := ih self n
        simp only [hd, if_false, Nat.add_zero] at h2 ⊢
        exact h2
      | true =>
        show (List.foldl collideStep ((self.Collide oc.1 oc.2).1, n + 1) rest).2 ≤
          n + if self.is_dead = true then 0 else 1
        have h2 := ih (self.Collide oc.1 oc.2).1 (n + 1)
        rw [collide_true_dead self oc.1 oc.2 hr] at h2
        simp only [if_true] at h2
        simp [hd]
        omega

/-- Equation lemma for `Hurt`. -/
lemma hurt_eq (o : GameObject) (damage now : Int) :
    o.Hurt damage now =
      (if max (o.health - damage) 0 = 0 then
        ({ o with health := max (o.health - damage) 0, is_dead := true,
                  time_update := now, life_length := 1000 },
          [⟨hitStr, { o with health := max (o.health - damage) 0, is_dead := true,
                             time_update := now, life_length := 1000 }, now⟩])
      else
        ({ o with health := max (o.health - damage) 0 },
          [⟨hitStr, { o with health := max (o.health - damage) 0 }, now⟩])) := by
  unfold GameObject.Hurt
  by_cases h : max (o.health - damage) 0 = 0 <;> simp [h]

/-! ## Claim theorems: the GameObject operations -/

/--
C3 (counterexample).  At a squared distance exactly equal to the squared
sum of the radii between the other's stored position and self's projected
position — i.e. a match in the claim's "at most" sense — `Collide` returns
`false` and changes nothing: the comparison in the code is strict.
-/
theorem C3_collide_boundary_no_hit :
    collideDistSq { size := 1 } { x := 2, size := 1 } 0 =
      collideSizeSq { size := 1 } { x := 2, size := 1 } ∧
    ({ size := 1 } : GameObject).is_dead = false ∧
    GameObject.Collide { size := 1 } { x := 2, size := 1 } 0 =
      ({ size := 1 }, false) := by
  refine ⟨?_, rfl, ?_⟩ <;> set_option maxRecDepth 4000 in with_unfolding_all decide

/--
C3 (amended).  `Collide self obj` at sampled wall clock `now` returns true
iff self is not already dead and the squared distance between the two
projected positions is strictly below the squared sum of the sizes; on a
hit it sets exactly `is_dead := true`, `time_update := now`,
`life_length := 1000`, and on a miss self is unchanged.
-/
theorem C3_collide_characterization (self obj : GameObject) (now : Int) :
    ((self.Collide obj now).2 = true ↔
      self.is_dead = false ∧
      collideDistSq self obj now < collideSizeSq self obj) ∧
    ((self.Collide obj now).2 = true →
      (self.Collide obj now).1 =
        { self with is_dead := true, time_update := now, life_length := 1000 }) ∧
    ((self.Collide obj now).2 = false → (self.Collide obj now).1 = self) := by
  rw [collide_eq_ite]
  split_ifs with h1 h2 <;> simp_all

/-- Witness for C3 (amended): a strict overlap at concrete inputs makes
`Collide` return true. -/
theorem C3_collide_characterization_witness :
    (GameObject.Collide { size := 1 } { x := 1, size := 1 } 0).2 = true :=
  (C3_collide_characterization { size := 1 } { x := 1, size := 1 } 0).1.mpr
    ⟨rfl, by with_unfolding_all decide⟩

/--
C4.  `Hurt` clamps health at `max (health - damage) 0`; whenever the
resulting health is 0 (in particular whenever the call drives it to 0)
the object is marked dead with `time_update = now` and
`life_length = 1000`; and every call emits exactly one `"hit"` frame.
-/
theorem C4_hurt_spec (o : GameObject) (damage now : Int) :
    (o.Hurt damage now).1.health = max (o.health - damage) 0 ∧
    ((o.Hurt damage now).1.health = 0 →
      (o.Hurt damage now).1.is_dead = true ∧
      (o.Hurt damage now).1.time_update = now ∧
      (o.Hurt damage now).1.life_length = 1000) ∧
    (o.Hurt damage now).2.length = 1 ∧
    ∀ f ∈ (o.Hurt damage now).2, f.messageType = hitStr := by
  rw [hurt_eq]
  by_cases h : max (o.health - damage) 0 = 0 <;> simp [h]

/-- Witness for C4: a lethal hit at concrete inputs. -/
theorem C4_hurt_spec_witness :
    (({} : GameObject).Hurt 100 7).1.is_dead = true ∧
    (({} : GameObject).Hurt 100 7).1.time_update = 7 ∧
    (({} : GameObject).Hurt 100 7).1.life_length = 1000 :=
  (C4_hurt_spec {} 100 7).2.1 (by decide)

/--
C10.  A snowball damages at most once: `Collide` on an already-dead self
returns false with no state change, a true result marks self dead, and
along any sequence of collision tests at most one returns true.
-/
theorem C10_collide_at_most_once (self obj : GameObject) (now : Int)
    (others : List (GameObject × Int)) :
    (self.is_dead = true → self.Collide obj now = (self, false)) ∧
    ((self.Collide obj now).2 = true → (self.Collide obj now).1.is_dead = true) ∧
    (collideMany self others).2 ≤ 1 := by
  refine ⟨collide_of_dead self obj now, collide_true_dead self obj now, ?_⟩
  have := collideMany_loop_bound others self 0
  unfold collideMany
  split_ifs at this <;> omega

/-- Witness for C10: a dead snowball tested against a touching player
reports no hit and is unchanged. -/
theorem C10_collide_at_most_once_witness :
    GameObject.Collide { is_dead := true } { size := 1 } 0 =
      ({ is_dead := true }, false) :=
  (C10_collide_at_most_once { is_dead := true } { size := 1 } 0 []).1 rfl

/-! ## Helper lemmas about `ExtractPlayerId` and the view loop -/

lemma findIdx_underscore_append (X k : List Char) (h : '_' ∉ X) :
    (X ++ '_' :: k).findIdx? (fun a => a = '_') = some X.length := by
  induction X with
  | nil => simp
  | cons c cs ih =>
    have hc : c ≠ '_' := fun hc => h (hc ▸ List.mem_cons_self c cs)
    have hcs : '_' ∉ cs := fun hm => h (List.mem_cons_of_mem c hm)
    simp [List.findIdx?_cons, hc, ih hcs]

lemma extract_canonical (X k : List Char) (h : '_' ∉ X) :
    ExtractPlayerId (canonicalId X k) = X := by
  have h1 : strFind (canonicalId X k) '_' = some 8 := by
    simp [strFind, canonicalId, snowballPrefixStr, List.findIdx?_cons]
  have hdrop : (canonicalId X k).drop 9 = X ++ '_' :: k := by
    have : canonicalId X k = snowballPrefixStr ++ (X ++ '_' :: k) := by
      simp [canonicalId]
    rw [this]
    exact List.drop_left' rfl
  have h2 : strFindFrom (canonicalId X k) '_' 9 = some (X.length + 9) := by
    unfold strFindFrom
    rw [hdrop, findIdx_underscore_append X k h]
    rfl
  have hstep : ExtractPlayerId (canonicalId X k) =
      match strFindFrom (canonicalId X k) '_' 9 with
      | none => notSnowballStr
      | some secondUnderscore =>
        substr (canonicalId X k) 9 (secondUnderscore - 8 - 1) := by
    unfold ExtractPlayerId
    rw [h1]
  rw [hstep, h2]
  show substr (canonicalId X k) 9 (X.length + 9 - 8 - 1) = X
  have hlen : X.length + 9 - 8 - 1 = X.length := by omega
  rw [hlen]
  unfold substr
  rw [hdrop]
  exact List.take_left' rfl

lemma extract_no_underscore (A : List Char) (h : '_' ∉ A) :
    ExtractPlayerId A = notSnowballStr := by
  have h1 : strFind A '_' = none := by
    simp [strFind, List.findIdx?_eq_none_iff]
    intro a ha hcontra
    exact h (hcontra ▸ ha)
  unfold ExtractPlayerId
  rw [h1]

lemma extract_one_underscore (A B : List Char) (hA : '_' ∉ A) (hB : '_' ∉ B) :
    ExtractPlayerId (A ++ '_' :: B) = notSnowballStr := by
  have h1 : strFind (A ++ '_' :: B) '_' = some A.length :=
    findIdx_underscore_append A B hA
  have hdrop : (A ++ '_' :: B).drop (A.length + 1) = B := by
    have : A ++ '_' :: B = (A ++ ['_']) ++ B := by simp
    rw [this]
    exact List.drop_left' (by simp)
  have h2 : strFindFrom (A ++ '_' :: B) '_' (A.length + 1) = none := by
    unfold strFindFrom
    rw [hdrop]
    have : B.findIdx? (fun a => a = '_') = none := by
      simp [List.findIdx?_eq_none_iff]
      intro a ha hcontra
      exact hB (hcontra ▸ ha)
    rw [this]
    rfl
  have hstep : ExtractPlayerId (A ++ '_' :: B) =
      match strFindFrom (A ++ '_' :: B) '_' (A.length + 1) with
      | none => notSnowballStr
      | some secondUnderscore =>
        substr (A ++ '_' :: B) (A.length + 1) (secondUnderscore - A.length - 1) := by
    unfold ExtractPlayerId
    rw [h1]
  rw [hstep, h2]

lemma mem_getCell_gridHasPtr (g : Grid) (p : Ptr) (r c : Nat)
    (h : p ∈ getCell g.cells r c) : gridHasPtr g p = true := by
  unfold getCell at h
  have hr : r < g.cells.length := by
    by_contra hlt
    rw [List.getD_eq_default g.cells [] (Nat.le_of_not_lt hlt)] at h
    simp at h
  rw [List.getD_eq_getElem g.cells [] hr] at h
  have hc : c < g.cells[r].length := by
    by_contra hlt
    rw [List.getD_eq_default _ [] (Nat.le_of_not_lt hlt)] at h
    simp at h
  rw [List.getD_eq_getElem _ [] hc] at h
  unfold gridHasPtr
  rw [List.any_eq_true]
  refine ⟨g.cells[r], List.getElem_mem hr, ?_⟩
  rw [List.any_eq_true]
  exact ⟨g.cells[r][c], List.getElem_mem hc, by simpa using h⟩

lemma mem_search_gridHasPtr (g : Grid) (p : Ptr) (a b u v : ℚ)
    (h : p ∈ g.Search a b u v) : gridHasPtr g p = true := by
  unfold Grid.Search at h
  simp only [List.mem_flatMap] at h
  obtain ⟨r, _, c, _, hmem⟩ := h
  split_ifs at hmem
  · simp at hmem
  · exact mem_getCell_gridHasPtr g p r.toNat c.toNat hmem

/-- Equation lemma for one step of the view loop. -/
lemma viewStep_eq (c : Ptr) (t : Int) (heap : Heap) (valid : List Ptr)
    (frames : List Frame) (optr : Ptr) :
    viewStep c t (heap, valid, frames) optr =
      (let obj := heapGet heap optr
       let player := heapGet heap c
       if obj.id = player.id then (heap, valid, frames)
       else if obj.is_dead ∧ obj.Expired t then (heap, valid, frames)
       else if obj.damage ≠ 0 ∧ ExtractPlayerId obj.id ≠ player.id then
         let res := obj.Collide player t
         let heap1 := heapSet heap optr res.1
         if res.2 then
           let hres := (heapGet heap1 c).Hurt obj.damage t
           (heapSet heap1 c hres.1, valid, frames ++ hres.2)
         else (heap1, valid ++ [optr], frames)
       else (heap, valid ++ [optr], frames)) := rfl

lemma viewFold_extract_self (c : Ptr) (t : Int) (heap : Heap) :
    ∀ (l : List Ptr),
      (∀ optr ∈ l, ExtractPlayerId (heapGet heap optr).id =
        (heapGet heap c).id) →
      ∀ (valid : List Ptr) (frames : List Frame),
        (l.foldl (viewStep c t) (heap, valid, frames)).1 = heap ∧
        (l.foldl (viewStep c t) (heap, valid, frames)).2.2 = frames := by
  intro l
  induction l with
  | nil => intro _ valid frames; exact ⟨rfl, rfl⟩
  | cons optr rest ih =>
    intro hl valid frames
    have hrest : ∀ q ∈ rest, ExtractPlayerId (heapGet heap q).id =
        (heapGet heap c).id :=
      fun q hq => hl q (List.mem_cons_of_mem optr hq)
    rw [List.foldl_cons, viewStep_eq]
    by_cases h1 : (heapGet heap optr).id = (heapGet heap c).id
    · simp only [h1, if_true]
      exact ih hrest valid frames
    · simp only [h1, if_false]
      by_cases h2 : (heapGet heap optr).is_dead ∧ (heapGet heap optr).Expired t
      · simp only [if_pos h2]
        exact ih hrest valid frames
      · simp only [if_neg h2]
        have h3 : ¬((heapGet heap optr).damage ≠ 0 ∧
            ExtractPlayerId (heapGet heap optr).id ≠ (heapGet heap c).id) := by
          intro hcon
          exact hcon.2 (hl optr (List.mem_cons_self optr rest))
        simp only [if_neg h3]
        exact ih hrest (valid ++ [optr]) frames

/-- A freshly constructed grid holds no pointer. -/
lemma gridHasPtr_mkGrid (h w cs : Int) (p : Ptr) :
    gridHasPtr (mkGrid h w cs) p = false := by
  unfold gridHasPtr mkGrid
  simp only [List.any_eq_false]
  intro row hrow
  rw [List.eq_of_mem_replicate hrow]
  simp only [Bool.not_eq_true, List.any_eq_false]
  intro cell hcell
  rw [List.eq_of_mem_replicate hcell]
  rfl

/-! ## Claim theorems: owner extraction -/

/--
C8 (counterexample).  The id `a_b_c` is not of the canonical
`snowball_<X>_<k>` shape, yet the extraction returns `b`, not the
sentinel `not_snowball`: any id with at least two underscores yields its
middle segment.
-/
theorem C8_extract_other_shape_not_sentinel :
    (¬∃ X k : List Char, ['a', '_', 'b', '_', 'c'] = canonicalId X k) ∧
    ExtractPlayerId ['a', '_', 'b', '_', 'c'] = ['b'] ∧
    ['b'] ≠ notSnowballStr := by
  refine ⟨?_, by decide, by decide⟩
  rintro ⟨X, k, h⟩
  have h0 := congrArg List.headI h
  rw [canonicalId, snowballPrefixStr] at h0
  simp only [List.headI, List.cons_append] at h0
  exact absurd h0 (by decide)

/--
C8 (amended).  Owner extraction returns the segment between the first two
underscores: on the canonical shape `snowball_X_k` (with `X`
underscore-free) it returns `X`, and it returns the sentinel
`not_snowball` exactly for ids with fewer than two underscores (none, or
one separating two underscore-free parts).  In the view tick, when every
object indexed in the grid has the player's id as its extracted owner, no
collision is resolved: the heap is unchanged and no hit frame is sent.
-/
theorem C8_extract_owner (X k A B : List Char) (hX : '_' ∉ X) (hA : '_' ∉ A)
    (hB : '_' ∉ B) (g : Grid) (heap : Heap) (c : Ptr) (now : Int)
    (hSelf : ∀ optr : Ptr, gridHasPtr g optr = true →
      ExtractPlayerId (heapGet heap optr).id = (heapGet heap c).id) :
    ExtractPlayerId (canonicalId X k) = X ∧
    ExtractPlayerId A = notSnowballStr ∧
    ExtractPlayerId (A ++ '_' :: B) = notSnowballStr ∧
    (UpdatePlayerView g heap c now).1 = heap ∧
    (UpdatePlayerView g heap c now).2.2 = [] := by
  refine ⟨extract_canonical X k hX, extract_no_underscore A hA,
    extract_one_underscore A B hA hB, ?_⟩
  unfold UpdatePlayerView
  exact viewFold_extract_self c now heap _
    (fun optr hmem => hSelf optr (mem_search_gridHasPtr g optr _ _ _ _ hmem)) [] []

/-- Witness for C8: concrete canonical and non-canonical ids, and a view
tick on an empty grid. -/
theorem C8_extract_owner_witness :
    ExtractPlayerId (canonicalId ['p'] ['1']) = ['p'] ∧
    ExtractPlayerId ['a'] = notSnowballStr ∧
    ExtractPlayerId (['a'] ++ '_' :: ['b']) = notSnowballStr ∧
    (UpdatePlayerView (mkGrid 1600 1600 100) [] 0 0).1 = [] := by
  have h := C8_extract_owner ['p'] ['1'] ['a'] ['b']
    (by decide) (by decide) (by decide)
    (mkGrid 1600 1600 100) [] 0 0
    (fun optr hmem => absurd hmem (by simp [gridHasPtr_mkGrid]))
  exact ⟨h.1, h.2.1, h.2.2.1, h.2.2.2.1⟩

/-! ## Helper lemmas: cell matrices and truncated cell indices -/

lemma getD_set_self {α : Type} : ∀ (l : List α) (i : Nat) (v d : α),
    i < l.length → (l.set i v).getD i d = v := by
  intro l
  induction l with
  | nil => intro i v d h; simp at h
  | cons a as ih =>
    intro i v d h
    cases i with
    | zero => rfl
    | succ j => exact ih j v d (by simpa using h)

lemma getD_set_ne {α : Type} : ∀ (l : List α) (i j : Nat) (v d : α),
    i ≠ j → (l.set i v).getD j d = l.getD j d := by
  intro l
  induction l with
  | nil => intro i j v d _; simp [List.set]
  | cons a as ih =>
    intro i j v d hne
    cases i with
    | zero =>
      cases j with
      | zero => exact absurd rfl hne
      | succ j2 => rfl
    | succ i2 =>
      cases j with
      | zero => rfl
      | succ j2 => exact ih i2 j2 v d (fun hc => hne (hc ▸ rfl))

lemma getCell_setCell_self (cells : Cells) (r c : Nat) (v : List Ptr)
    (hr : r < cells.length) (hc : c < (cells.getD r []).length) :
    getCell (setCell cells r c v) r c = v := by
  unfold getCell setCell
  rw [getD_set_self _ _ _ _ hr]
  rw [getD_set_self _ _ _ _ hc]

lemma getCell_setCell_ne (cells : Cells) (r c : Nat) (v : List Ptr)
    (r' c' : Nat) (hne : ¬(r' = r ∧ c' = c)) :
    getCell (setCell cells r c v) r' c' = getCell cells r' c' := by
  unfold getCell setCell
  by_cases hr : r' = r
  · subst hr
    have hc : c' ≠ c := fun hcc => hne ⟨rfl, hcc⟩
    by_cases hlen : r' < cells.length
    · rw [getD_set_self _ _ _ _ hlen]
      rw [getD_set_ne _ _ _ _ _ (fun hcc => hc hcc.symm)]
    · rw [List.set_eq_of_length_le (Nat.le_of_not_lt hlen)]
  · rw [getD_set_ne _ _ _ _ _ (fun hrr => hr hrr.symm)]

lemma mem_cellInsert_self (p : Ptr) (cell : List Ptr) : p ∈ cellInsert p cell := by
  unfold cellInsert
  split_ifs with h
  · exact h
  · simp

lemma length_setCell (cells : Cells) (r c : Nat) (v : List Ptr) :
    (setCell cells r c v).length = cells.length := by
  unfold setCell
  exact List.length_set cells r _

lemma rowLength_setCell (cells : Cells) (r c : Nat) (v : List Ptr) :
    ∀ rowList ∈ setCell cells r c v, ∃ rowList0 ∈ cells,
      rowList.length = rowList0.length := by
  intro rowList hmem
  by_cases hlen : r < cells.length
  · unfold setCell at hmem
    rcases List.mem_or_eq_of_mem_set hmem with h | h
    · exact ⟨rowList, h, rfl⟩
    · refine ⟨cells.getD r [], ?_, ?_⟩
      · rw [List.getD_eq_getElem cells [] hlen]
        exact List.getElem_mem hlen
      · rw [h]; exact List.length_set _ _ _
  · unfold setCell at hmem
    rw [List.set_eq_of_length_le (Nat.le_of_not_lt hlen)] at hmem
    exact ⟨rowList, hmem, rfl⟩

lemma wf_insert (g : Grid) (p : Ptr) (obj : GameObject) (hwf : g.WF) :
    (g.Insert p obj).1.WF := by
  obtain ⟨h1, h2, h3, h4, h5, h6, h7⟩ := hwf
  unfold Grid.Insert
  by_cases h : (cppDiv (cppTrunc obj.y) g.cell_size ≥ g.rows ∨
      cppDiv (cppTrunc obj.x) g.cell_size ≥ g.cols ∨
      cppDiv (cppTrunc obj.y) g.cell_size < 0 ∨
      cppDiv (cppTrunc obj.x) g.cell_size < 0)
  · rw [if_pos h]
    exact ⟨h1, h2, h3, h4, h5, h6, h7⟩
  · rw [if_neg h]
    refine ⟨h1, h2, h3, h4, h5, ?_, ?_⟩
    · rw [length_setCell]; exact h6
    · intro rowList hmem
      obtain ⟨row0, hmem0, hlen0⟩ := rowLength_setCell _ _ _ _ rowList hmem
      rw [hlen0]; exact h7 row0 hmem0

lemma wf_remove (g : Grid) (p : Ptr) (obj : GameObject) (hwf : g.WF) :
    (g.Remove p obj).WF := by
  obtain ⟨h1, h2, h3, h4, h5, h6, h7⟩ := hwf
  unfold Grid.Remove
  by_cases h : (obj.row ≥ g.rows ∨ obj.col ≥ g.cols ∨ obj.row < 0 ∨ obj.col < 0)
  · rw [if_pos h]
    exact ⟨h1, h2, h3, h4, h5, h6, h7⟩
  · rw [if_neg h]
    refine ⟨h1, h2, h3, h4, h5, ?_, ?_⟩
    · rw [length_setCell]; exact h6
    · intro rowList hmem
      obtain ⟨row0, hmem0, hlen0⟩ := rowLength_setCell _ _ _ _ rowList hmem
      rw [hlen0]; exact h7 row0 hmem0

/-- `Remove` only ever changes the cell matrix. -/
lemma remove_eq_setCells (g : Grid) (p : Ptr) (obj : GameObject) :
    ∃ cl, g.Remove p obj = { g with cells := cl } := by
  unfold Grid.Remove
  by_cases h : (obj.row ≥ g.rows ∨ obj.col ≥ g.cols ∨ obj.row < 0 ∨ obj.col < 0)
  · rw [if_pos h]
    exact ⟨g.cells, rfl⟩
  · rw [if_neg h]
    exact ⟨_, rfl⟩

lemma cppTrunc_eq_floor (q : ℚ) (h : 0 ≤ q) : cppTrunc q = ⌊q⌋ := by
  unfold cppTrunc
  rw [Int.tdiv_eq_ediv (Rat.num_nonneg.mpr h) (Int.natCast_nonneg q.den)]
  exact Rat.floor_def.symm

lemma cppTrunc_intCast (n : Int) : cppTrunc ((n : Int) : ℚ) = n := by
  unfold cppTrunc
  rw [Rat.num_intCast, Rat.den_intCast]
  exact Int.tdiv_one n

/-- For `0 ≤ q < bound`, the truncated cell index lies in
`[0, (bound-1)/cs + 1)`. -/
lemma cell_index_range (q : ℚ) (bound cs : Int) (hcs : 0 < cs)
    (h0 : 0 ≤ q) (hlt : q < (bound : ℚ)) :
    0 ≤ cppDiv (cppTrunc q) cs ∧
    cppDiv (cppTrunc q) cs < cppDiv (bound - 1) cs + 1 := by
  have htr : cppTrunc q = ⌊q⌋ := cppTrunc_eq_floor q h0
  have h0' : 0 ≤ cppTrunc q := by rw [htr]; exact Int.floor_nonneg.mpr h0
  have hle : cppTrunc q ≤ bound - 1 := by
    rw [htr]
    have := Int.floor_lt.mpr hlt
    omega
  refine ⟨Int.tdiv_nonneg h0' (le_of_lt hcs), ?_⟩
  have hmono : cppDiv (cppTrunc q) cs ≤ cppDiv (bound - 1) cs := by
    unfold cppDiv
    rw [Int.tdiv_eq_ediv h0' (le_of_lt hcs), Int.tdiv_eq_ediv (by omega) (le_of_lt hcs)]
    exact Int.ediv_le_ediv hcs hle
  omega

lemma mkGrid_WF (h w cs : Int) (hh : 0 < h) (hw : 0 < w) (hcs : 0 < cs) :
    (mkGrid h w cs).WF := by
  refine ⟨hcs, hh, hw, rfl, rfl, ?_, ?_⟩
  · exact List.length_replicate _ _
  · intro rowList hmem
    rw [List.eq_of_mem_replicate hmem]
    exact List.length_replicate _ _

/-- Inserting an object whose computed cell is in range puts its pointer
into that cell. -/
lemma insert_mem_cell (g : Grid) (p : Ptr) (obj : GameObject) (hwf : g.WF)
    (h0 : 0 ≤ cppDiv (cppTrunc obj.y) g.cell_size)
    (h1 : cppDiv (cppTrunc obj.y) g.cell_size < g.rows)
    (h2 : 0 ≤ cppDiv (cppTrunc obj.x) g.cell_size)
    (h3 : cppDiv (cppTrunc obj.x) g.cell_size < g.cols) :
    p ∈ getCell (g.Insert p obj).1.cells
      (cppDiv (cppTrunc obj.y) g.cell_size).toNat
      (cppDiv (cppTrunc obj.x) g.cell_size).toNat ∧
    (g.Insert p obj).2 = { obj with row := cppDiv (cppTrunc obj.y) g.cell_size,
                                    col := cppDiv (cppTrunc obj.x) g.cell_size } := by
  obtain ⟨hc1, hc2, hc3, hc4, hc5, hc6, hc7⟩ := hwf
  unfold Grid.Insert
  have hcond : ¬(cppDiv (cppTrunc obj.y) g.cell_size ≥ g.rows ∨
      cppDiv (cppTrunc obj.x) g.cell_size ≥ g.cols ∨
      cppDiv (cppTrunc obj.y) g.cell_size < 0 ∨
      cppDiv (cppTrunc obj.x) g.cell_size < 0) := by
    push_neg
    exact ⟨h1, h3, h0, h2⟩
  rw [if_neg hcond]
  refine ⟨?_, rfl⟩
  have hrlen : (cppDiv (cppTrunc obj.y) g.cell_size).toNat < g.cells.length := by
    rw [hc6]; omega
  have hclen : (cppDiv (cppTrunc obj.x) g.cell_size).toNat <
      (g.cells.getD (cppDiv (cppTrunc obj.y) g.cell_size).toNat []).length := by
    have hmem : g.cells.getD (cppDiv (cppTrunc obj.y) g.cell_size).toNat [] ∈ g.cells := by
      rw [List.getD_eq_getElem g.cells [] hrlen]
      exact List.getElem_mem hrlen
    rw [hc7 _ hmem]; omega
  rw [getCell_setCell_self _ _ _ _ hrlen hclen]
  exact mem_cellInsert_self p _

/-! ## Claim theorems: join handling and grid insertion -/

/--
C5 (counterexample).  A join whose position is out of bounds is *not* a
complete no-op on the player: `id` and `username` are overwritten before
the bounds check.  Here an out-of-bounds join at `(-5, 0)` changes the
player's id from the default `"unknown"` to `"A"` (the grid stays
untouched, so the player is indeed not inserted).
-/
theorem C5_join_oob_sets_id :
    ((-5 : ℚ) < 0) ∧
    (handleJoin (mkGrid 1600 1600 100) 0 {}
        { id := some ['A'], pos := some (-5, 0) }).2.id = ['A'] ∧
    (handleJoin (mkGrid 1600 1600 100) 0 {}
        { id := some ['A'], pos := some (-5, 0) }).2.id ≠ ({} : GameObject).id ∧
    (handleJoin (mkGrid 1600 1600 100) 0 {}
        { id := some ['A'], pos := some (-5, 0) }).1 = mkGrid 1600 1600 100 := by
  refine ⟨by norm_num, ?_, ?_, ?_⟩ <;>
    set_option maxRecDepth 40000 in with_unfolding_all decide

/--
C5 (amended).  An out-of-bounds join (x or y negative, or beyond
width/height) returns without inserting, but only after overwriting the
player's `id` and `username`; all other fields are untouched and the grid
is unchanged.  An in-bounds join populates `id`, `username`, `health`,
position, `size`, `time_update` (and the effectively infinite
`life_length`) and hands the player to `Grid::Insert`; when the position
is strictly inside `[0,width) × [0,height)` the player really lands in
its truncated cell.
-/
theorem C5_join_characterization (g : Grid) (pptr : Ptr) (player : GameObject)
    (message : JoinMsg) (hwf : g.WF) :
    (((message.pos.map Prod.fst).getD 0 < 0 ∨ (message.pos.map Prod.snd).getD 0 < 0 ∨
      (message.pos.map Prod.fst).getD 0 > (g.width : ℚ) ∨
      (message.pos.map Prod.snd).getD 0 > (g.height : ℚ)) →
      handleJoin g pptr player message =
        (g, { player with id := message.id.getD unknownStr,
                          username := message.username.getD unknownStr })) ∧
    (¬((message.pos.map Prod.fst).getD 0 < 0 ∨ (message.pos.map Prod.snd).getD 0 < 0 ∨
      (message.pos.map Prod.fst).getD 0 > (g.width : ℚ) ∨
      (message.pos.map Prod.snd).getD 0 > (g.height : ℚ)) →
      handleJoin g pptr player message =
        g.Insert pptr
          { player with id := message.id.getD unknownStr,
                        username := message.username.getD unknownStr,
                        health := message.health.getD 100,
                        x := (message.pos.map Prod.fst).getD 0,
                        y := (message.pos.map Prod.snd).getD 0,
                        size := message.size.getD 20,
                        time_update := message.timeUpdate.getD 0,
                        life_length := 4000000000000000000 }) ∧
    (0 ≤ (message.pos.map Prod.fst).getD 0 →
      (message.pos.map Prod.fst).getD 0 < (g.width : ℚ) →
      0 ≤ (message.pos.map Prod.snd).getD 0 →
      (message.pos.map Prod.snd).getD 0 < (g.height : ℚ) →
      gridHasPtr (handleJoin g pptr player message).1 pptr = true) := by
  obtain ⟨hc1, hc2, hc3, hc4, hc5, hc6, hc7⟩ := hwf
  refine ⟨?_, ?_, ?_⟩
  · intro h
    unfold handleJoin
    rw [if_pos h]
  · intro h
    unfold handleJoin
    rw [if_neg h]
  · intro hx0 hxw hy0 hyh
    have hx : ¬((message.pos.map Prod.fst).getD 0 < 0 ∨
        (message.pos.map Prod.snd).getD 0 < 0 ∨
        (message.pos.map Prod.fst).getD 0 > (g.width : ℚ) ∨
        (message.pos.map Prod.snd).getD 0 > (g.height : ℚ)) := by
      push_neg
      exact ⟨hx0, hy0, le_of_lt hxw, le_of_lt hyh⟩
    unfold handleJoin
    rw [if_neg hx]
    have hrow := cell_index_range ((message.pos.map Prod.snd).getD 0) g.height
      g.cell_size hc1 hy0 hyh
    have hcol := cell_index_range ((message.pos.map Prod.fst).getD 0) g.width
      g.cell_size hc1 hx0 hxw
    have hmem := insert_mem_cell g pptr
      { player with id := message.id.getD unknownStr,
                    username := message.username.getD unknownStr,
                    health := message.health.getD 100,
                    x := (message.pos.map Prod.fst).getD 0,
                    y := (message.pos.map Prod.snd).getD 0,
                    size := message.size.getD 20,
                    time_update := message.timeUpdate.getD 0,
                    life_length := 4000000000000000000 }
      ⟨hc1, hc2, hc3, hc4, hc5, hc6, hc7⟩
      hrow.1 (by rw [hc4]; exact hrow.2) hcol.1 (by rw [hc5]; exact hcol.2)
    exact mem_getCell_gridHasPtr _ pptr _ _ hmem.1

/-- Witness for C5 (amended): a concrete in-bounds join lands in the grid. -/
theorem C5_join_characterization_witness :
    gridHasPtr (handleJoin (mkGrid 1600 1600 100) 4 {}
      { id := some ['A'], pos := some (250, 350) }).1 4 = true :=
  (C5_join_characterization (mkGrid 1600 1600 100) 4 {}
      { id := some ['A'], pos := some (250, 350) }
      (mkGrid_WF 1600 1600 100 (by decide) (by decide) (by decide))).2.2
    (by with_unfolding_all decide) (by with_unfolding_all decide)
    (by with_unfolding_all decide) (by with_unfolding_all decide)

/--
C6 (counterexample).  An object at `(-50, -50)` — outside the world
rectangle — is inserted into cell `(0,0)`: C++ `static_cast<int>` and
integer division both truncate toward zero, so every coordinate in
`(-cell_size, 0)` maps to index 0 and passes the bounds check.
-/
theorem C6_insert_negative_position :
    (({ x := -50, y := -50 } : GameObject).x < 0) ∧
    gridHasPtr ((mkGrid 1600 1600 100).Insert 7 { x := -50, y := -50 }).1 7 = true := by
  refine ⟨?_, ?_⟩ <;> with_unfolding_all decide

/--
C6 (amended).  `Insert` is a silent no-op exactly when the cell computed
by toward-zero truncation and division, `(trunc(y)/cs, trunc(x)/cs)`,
falls outside `[0,rows) × [0,cols)`; otherwise it records that row and
column on the object and adds the pointer to exactly that cell, leaving
every other cell unchanged.  (Objects with coordinates in
`(-cell_size, 0)` are therefore inserted at index 0 even though they are
outside the world rectangle.)
-/
theorem C6_insert_characterization (g : Grid) (p : Ptr) (obj : GameObject)
    (hwf : g.WF) :
    ((cppDiv (cppTrunc obj.y) g.cell_size ≥ g.rows ∨
      cppDiv (cppTrunc obj.x) g.cell_size ≥ g.cols ∨
      cppDiv (cppTrunc obj.y) g.cell_size < 0 ∨
      cppDiv (cppTrunc obj.x) g.cell_size < 0) →
      g.Insert p obj = (g, obj)) ∧
    (¬(cppDiv (cppTrunc obj.y) g.cell_size ≥ g.rows ∨
      cppDiv (cppTrunc obj.x) g.cell_size ≥ g.cols ∨
      cppDiv (cppTrunc obj.y) g.cell_size < 0 ∨
      cppDiv (cppTrunc obj.x) g.cell_size < 0) →
      (g.Insert p obj).2 = { obj with row := cppDiv (cppTrunc obj.y) g.cell_size,
                                      col := cppDiv (cppTrunc obj.x) g.cell_size } ∧
      p ∈ getCell (g.Insert p obj).1.cells
        (cppDiv (cppTrunc obj.y) g.cell_size).toNat
        (cppDiv (cppTrunc obj.x) g.cell_size).toNat ∧
      ∀ r' c' : Nat, ¬(r' = (cppDiv (cppTrunc obj.y) g.cell_size).toNat ∧
          c' = (cppDiv (cppTrunc obj.x) g.cell_size).toNat) →
        getCell (g.Insert p obj).1.cells r' c' = getCell g.cells r' c') := by
  refine ⟨?_, ?_⟩
  · intro h
    unfold Grid.Insert
    rw [if_pos h]
  · intro h
    push_neg at h
    obtain ⟨h1, h3, h0, h2⟩ := h
    have hmem := insert_mem_cell g p obj hwf h0 h1 h2 h3
    refine ⟨hmem.2, hmem.1, ?_⟩
    intro r' c' hne
    unfold Grid.Insert
    rw [if_neg (by push_neg; exact ⟨h1, h3, h0, h2⟩)]
    exact getCell_setCell_ne _ _ _ _ _ _ hne

/-- Witness for C6 (amended): a concrete in-range insert at `(250, 350)`
lands in cell `(3, 2)` and records it on the object. -/
theorem C6_insert_characterization_witness :
    ((mkGrid 1600 1600 100).Insert 7 { x := 250, y := 350 }).2.row = 3 ∧
    7 ∈ getCell ((mkGrid 1600 1600 100).Insert 7 { x := 250, y := 350 }).1.cells 3 2 := by
  have h := (C6_insert_characterization (mkGrid 1600 1600 100) 7 { x := 250, y := 350 }
    (mkGrid_WF 1600 1600 100 (by decide) (by decide) (by decide))).2
    (by with_unfolding_all decide)
  refine ⟨?_, ?_⟩
  · rw [h.1]
    with_unfolding_all decide
  · have h2 := h.2.1
    have hy : (cppDiv (cppTrunc ({ x := 250, y := 350 } : GameObject).y)
        (mkGrid 1600 1600 100).cell_size).toNat = 3 := by
      with_unfolding_all decide
    have hx : (cppDiv (cppTrunc ({ x := 250, y := 350 } : GameObject).x)
        (mkGrid 1600 1600 100).cell_size).toNat = 2 := by
      with_unfolding_all decide
    rw [hy, hx] at h2
    exact h2

/-! ## Helper lemmas: search ranges -/

lemma mem_intRange (lo hi a : Int) : a ∈ intRange lo hi ↔ lo ≤ a ∧ a ≤ hi := by
  unfold intRange
  rw [List.mem_map]
  constructor
  · rintro ⟨i, hi2, hEq⟩
    rw [List.mem_range] at hi2
    omega
  · rintro ⟨h1, h2⟩
    refine ⟨(a - lo).toNat, ?_, ?_⟩
    · rw [List.mem_range]; omega
    · omega

lemma intRange_nil (lo hi : Int) (h : hi < lo) : intRange lo hi = [] := by
  unfold intRange
  have : (hi + 1 - lo).toNat = 0 := by omega
  rw [this]
  rfl

/-! ## Claim theorems: grid search -/

/--
C7 (counterexample).  A query with `y_lo = 99 > y_hi = 0` does *not*
return the empty list: both bounds truncate into row 0, so the cell
rectangle is non-degenerate and the object stored at `(50, 50)` is
returned.
-/
theorem C7_search_inverted_range_not_empty :
    ((99 : ℚ) > 0) ∧
    ((mkGrid 1600 1600 100).Insert 3 { x := 50, y := 50 }).1.Search 99 0 50 50 = [3] := by
  refine ⟨by norm_num, ?_⟩
  set_option maxRecDepth 40000 in with_unfolding_all decide

/--
C7 (amended).  `Search` concatenates the membership of the cells in the
inclusive rectangle from `(trunc(y_lo)/cs, trunc(x_lo)/cs)` to
`(trunc(y_hi)/cs, trunc(x_hi)/cs)` — indices computed by toward-zero
truncation and division, not by floor — clipped to the valid rows and
columns; a query returns the empty list when that truncated index
rectangle is empty (not when `y_lo > y_hi` as rationals).
-/
theorem C7_search_characterization (g : Grid) (y_lo y_hi x_lo x_hi : ℚ) (q : Ptr) :
    (q ∈ g.Search y_lo y_hi x_lo x_hi ↔
      ∃ r c : Int,
        cppDiv (cppTrunc y_lo) g.cell_size ≤ r ∧
        r ≤ cppDiv (cppTrunc y_hi) g.cell_size ∧
        cppDiv (cppTrunc x_lo) g.cell_size ≤ c ∧
        c ≤ cppDiv (cppTrunc x_hi) g.cell_size ∧
        0 ≤ r ∧ r < g.rows ∧ 0 ≤ c ∧ c < g.cols ∧
        q ∈ getCell g.cells r.toNat c.toNat) ∧
    ((cppDiv (cppTrunc y_hi) g.cell_size < cppDiv (cppTrunc y_lo) g.cell_size ∨
      cppDiv (cppTrunc x_hi) g.cell_size < cppDiv (cppTrunc x_lo) g.cell_size) →
      g.Search y_lo y_hi x_lo x_hi = []) := by
  constructor
  · unfold Grid.Search
    simp only [List.mem_flatMap]
    constructor
    · rintro ⟨r, hr, c, hc, hmem⟩
      rw [mem_intRange] at hr hc
      split_ifs at hmem with hcond
      · simp at hmem
      · push_neg at hcond
        exact ⟨r, c, hr.1, hr.2, hc.1, hc.2, hcond.2.2.1, hcond.1, hcond.2.2.2, hcond.2.1,
          hmem⟩
    · rintro ⟨r, c, h1, h2, h3, h4, h5, h6, h7, h8, hmem⟩
      refine ⟨r, (mem_intRange _ _ _).mpr ⟨h1, h2⟩, c, (mem_intRange _ _ _).mpr ⟨h3, h4⟩, ?_⟩
      rw [if_neg (by push_neg; exact ⟨h6, h8, h5, h7⟩)]
      exact hmem
  · intro h
    unfold Grid.Search
    rcases h with h | h
    · simp [intRange_nil _ _ h]
    · simp [intRange_nil _ _ h]

/-- Witness for C7 (amended): the object inserted at `(50, 50)` is found by
the inverted query `Search 99 0 50 50` through cell `(0, 0)`. -/
theorem C7_search_characterization_witness :
    3 ∈ ((mkGrid 1600 1600 100).Insert 3 { x := 50, y := 50 }).1.Search 99 0 50 50 :=
  (C7_search_characterization ((mkGrid 1600 1600 100).Insert 3 { x := 50, y := 50 }).1
      99 0 50 50 3).1.mpr
    ⟨0, 0, by with_unfolding_all decide, by with_unfolding_all decide,
      by with_unfolding_all decide, by with_unfolding_all decide,
      by decide, by with_unfolding_all decide, by decide, by with_unfolding_all decide,
      by set_option maxRecDepth 40000 in with_unfolding_all decide⟩

/-! ## Claim theorems: grid update -/

/--
C9 (counterexample).  On a cell transition, `Update` writes back the
*integer-truncated* projected position, not the projected position: a
snowball projected to `x = 150.5` is stored at `x = 150`.
-/
theorem C9_update_truncates_position :
    get_cur_x { x := 50, y := 50, vx := 201/2, isSnowball := true } 1000 = 301/2 ∧
    ((mkGrid 1600 1600 100).Update 5
        { x := 50, y := 50, vx := 201/2, isSnowball := true } 1000).2.x = 150 ∧
    ((150 : ℚ) ≠ 301/2) := by
  refine ⟨?_, ?_, ?_⟩ <;> set_option maxRecDepth 40000 in with_unfolding_all decide

/--
C9 (amended).  `Update` is a no-op when the truncated projected cell is
out of range, and also when it equals the recorded cell (position, anchor
and index all unchanged); only on a cell transition does it remove the
pointer from the old recorded cell, write the *truncated* projected
position into `x, y`, shorten `life_length` by `now − time_update`,
re-anchor `time_update := now`, and insert the pointer into the new cell.
-/
theorem C9_update_characterization (g : Grid) (p : Ptr) (obj : GameObject)
    (now : Int) (hwf : g.WF) :
    ((cppDiv (cppTrunc (get_cur_y obj now)) g.cell_size < 0 ∨
      cppDiv (cppTrunc (get_cur_x obj now)) g.cell_size < 0 ∨
      cppDiv (cppTrunc (get_cur_y obj now)) g.cell_size ≥ g.rows ∨
      cppDiv (cppTrunc (get_cur_x obj now)) g.cell_size ≥ g.cols) →
      g.Update p obj now = (g, obj)) ∧
    (¬(cppDiv (cppTrunc (get_cur_y obj now)) g.cell_size < 0 ∨
      cppDiv (cppTrunc (get_cur_x obj now)) g.cell_size < 0 ∨
      cppDiv (cppTrunc (get_cur_y obj now)) g.cell_size ≥ g.rows ∨
      cppDiv (cppTrunc (get_cur_x obj now)) g.cell_size ≥ g.cols) →
      (¬(obj.row ≠ cppDiv (cppTrunc (get_cur_y obj now)) g.cell_size ∨
          obj.col ≠ cppDiv (cppTrunc (get_cur_x obj now)) g.cell_size) →
        g.Update p obj now = (g, obj)) ∧
      ((obj.row ≠ cppDiv (cppTrunc (get_cur_y obj now)) g.cell_size ∨
          obj.col ≠ cppDiv (cppTrunc (get_cur_x obj now)) g.cell_size) →
        (g.Update p obj now).2 =
          { obj with row := cppDiv (cppTrunc (get_cur_y obj now)) g.cell_size,
                     col := cppDiv (cppTrunc (get_cur_x obj now)) g.cell_size,
                     x := ((cppTrunc (get_cur_x obj now) : Int) : ℚ),
                     y := ((cppTrunc (get_cur_y obj now) : Int) : ℚ),
                     life_length := obj.life_length - (now - obj.time_update),
                     time_update := now } ∧
        p ∈ getCell (g.Update p obj now).1.cells
          (cppDiv (cppTrunc (get_cur_y obj now)) g.cell_size).toNat
          (cppDiv (cppTrunc (get_cur_x obj now)) g.cell_size).toNat)) := by
  constructor
  · intro h
    unfold Grid.Update
    rw [if_pos h]
  · intro h
    push_neg at h
    obtain ⟨h1, h2, h3, h4⟩ := h
    constructor
    · intro hsame
      push_neg at hsame
      unfold Grid.Update
      rw [if_neg (by push_neg; exact ⟨h1, h2, h3, h4⟩)]
      rw [if_neg (by push_neg; exact hsame)]
    · intro hdiff
      unfold Grid.Update
      rw [if_neg (by push_neg; exact ⟨h1, h2, h3, h4⟩)]
      rw [if_pos hdiff]
      have hwfr := wf_remove g p obj hwf
      obtain ⟨cl, hcl⟩ := remove_eq_setCells g p obj
      rw [hcl] at hwfr ⊢
      have hins := insert_mem_cell { g with cells := cl } p
        { obj with row := cppDiv (cppTrunc (get_cur_y obj now)) g.cell_size,
                   col := cppDiv (cppTrunc (get_cur_x obj now)) g.cell_size,
                   x := ((cppTrunc (get_cur_x obj now) : Int) : ℚ),
                   y := ((cppTrunc (get_cur_y obj now) : Int) : ℚ),
                   life_length := obj.life_length - (now - obj.time_update),
                   time_update := now }
        hwfr
        (by simpa [cppTrunc_intCast] using h1)
        (by simpa [cppTrunc_intCast] using h3)
        (by simpa [cppTrunc_intCast] using h2)
        (by simpa [cppTrunc_intCast] using h4)
      constructor
      · rw [hins.2]
        simp [cppTrunc_intCast]
      · have := hins.1
        simpa [cppTrunc_intCast] using this

/-- Witness for C9 (amended): the transition at the counterexample's input
lands the pointer in cell `(0, 1)` with the truncated position written
back. -/
theorem C9_update_characterization_witness :
    ((mkGrid 1600 1600 100).Update 5
        { x := 50, y := 50, vx := 201/2, isSnowball := true } 1000).2 =
      { x := 150, y := 50, vx := 201/2, isSnowball := true, row := 0, col := 1,
        life_length := 0, time_update := 1000 } ∧
    5 ∈ getCell ((mkGrid 1600 1600 100).Update 5
        { x := 50, y := 50, vx := 201/2, isSnowball := true } 1000).1.cells 0 1 := by
  have h := (C9_update_characterization (mkGrid 1600 1600 100) 5
      { x := 50, y := 50, vx := 201/2, isSnowball := true } 1000
      (mkGrid_WF 1600 1600 100 (by decide) (by decide) (by decide))).2
    (by set_option maxRecDepth 40000 in with_unfolding_all decide)
  have h2 := h.2 (by set_option maxRecDepth 40000 in with_unfolding_all decide)
  constructor
  · rw [h2.1]
    set_option maxRecDepth 40000 in with_unfolding_all decide
  · have h3 := h2.2
    have hy : (cppDiv (cppTrunc (get_cur_y
        { x := 50, y := 50, vx := 201/2, isSnowball := true } 1000))
        (mkGrid 1600 1600 100).cell_size).toNat = 0 := by
      set_option maxRecDepth 40000 in with_unfolding_all decide
    have hx : (cppDiv (cppTrunc (get_cur_x
        { x := 50, y := 50, vx := 201/2, isSnowball := true } 1000))
        (mkGrid 1600 1600 100).cell_size).toNat = 1 := by
      set_option maxRecDepth 40000 in with_unfolding_all decide
    rw [hy, hx] at h3
    exact h3

/-! ## Helper lemmas: worker ticks -/

lemma heapGet_cons (k : Ptr) (v : GameObject) (rest : Heap) (p : Ptr) :
    heapGet ((k, v) :: rest) p = if k = p then v else heapGet rest p := by
  unfold heapGet
  by_cases hk : k = p
  · subst hk
    rw [List.lookup_cons_self, if_pos rfl]
    rfl
  · have hpk : (p == k) = false := by
      simpa using fun h => hk h.symm
    rw [if_neg hk]
    have hlk : List.lookup p ((k, v) :: rest) = List.lookup p rest := by
      rw [List.lookup_cons, hpk]
    rw [hlk]

lemma heapGet_damage_zero : ∀ (heap : Heap), (∀ e ∈ heap, e.2.damage = 0) →
    ∀ p : Ptr, (heapGet heap p).damage = 0 := by
  intro heap
  induction heap with
  | nil => intro _ p; rfl
  | cons e rest ih =>
    intro h p
    rcases e with ⟨k, v⟩
    rw [heapGet_cons]
    by_cases hk : k = p
    · rw [if_pos hk]
      exact h (k, v) (List.mem_cons_self _ _)
    · rw [if_neg hk]
      exact ih (fun e he => h e (List.mem_cons_of_mem _ he)) p

lemma viewFold_no_damage (c : Ptr) (t : Int) (heap : Heap)
    (hnd : ∀ p : Ptr, (heapGet heap p).damage = 0) :
    ∀ (l : List Ptr) (valid : List Ptr) (frames : List Frame),
      (l.foldl (viewStep c t) (heap, valid, frames)).1 = heap ∧
      (l.foldl (viewStep c t) (heap, valid, frames)).2.2 = frames := by
  intro l
  induction l with
  | nil => intro valid frames; exact ⟨rfl, rfl⟩
  | cons optr rest ih =>
    intro valid frames
    rw [List.foldl_cons, viewStep_eq]
    by_cases h1 : (heapGet heap optr).id = (heapGet heap c).id
    · simp only [h1, if_true]
      exact ih valid frames
    · simp only [h1, if_false]
      by_cases h2 : (heapGet heap optr).is_dead ∧ (heapGet heap optr).Expired t
      · simp only [if_pos h2]
        exact ih valid frames
      · simp only [if_neg h2]
        have h3 : ¬((heapGet heap optr).damage ≠ 0 ∧
            ExtractPlayerId (heapGet heap optr).id ≠ (heapGet heap c).id) := by
          intro hcon
          exact hcon.1 (hnd optr)
        simp only [if_neg h3]
        exact ih (valid ++ [optr]) frames

lemma updatePlayerView_no_damage (g : Grid) (heap : Heap) (c : Ptr) (now : Int)
    (hnd : ∀ p : Ptr, (heapGet heap p).damage = 0) :
    (UpdatePlayerView g heap c now).1 = heap := by
  unfold UpdatePlayerView
  exact (viewFold_no_damage c now heap hnd _ [] []).1

lemma handleClientsLoop_dead_aborts (heap : Heap) (now : Int) (cd : Ptr)
    (l2 : List Ptr) (hdead : (heapGet heap cd).is_dead = true)
    (hnd : ∀ p : Ptr, (heapGet heap p).damage = 0) :
    ∀ (l1 : List Ptr) (st : WorkerTick), st.heap = heap →
      (∀ c ∈ l1, (heapGet heap c).is_dead = false) →
      (handleClientsLoop st (l1 ++ cd :: l2) now).heap = heap ∧
      (handleClientsLoop st (l1 ++ cd :: l2) now).clients =
        st.clients.filter (fun d => d ≠ cd) ∧
      (handleClientsLoop st (l1 ++ cd :: l2) now).processed =
        st.processed ++ l1.filter (fun c => !((heapGet heap c).Expired now)) := by
  intro l1
  induction l1 with
  | nil =>
    intro st hst _
    rw [List.nil_append, handleClientsLoop, hst, if_pos hdead]
    exact ⟨rfl, rfl, by simp⟩
  | cons c l1' ih =>
    intro st hst hl1
    have hcnotdead : (heapGet heap c).is_dead = false :=
      hl1 c (List.mem_cons_self _ _)
    have hl1' : ∀ d ∈ l1', (heapGet heap d).is_dead = false :=
      fun d hd => hl1 d (List.mem_cons_of_mem _ hd)
    rw [List.cons_append, handleClientsLoop, hst]
    rw [if_neg (by rw [hcnotdead]; exact fun hc => nomatch hc)]
    by_cases hexp : (heapGet heap c).Expired now
    · rw [if_pos hexp]
      have hx := ih { grid := st.grid.Remove c (heapGet heap c), heap := heap,
                      clients := st.clients, processed := st.processed } rfl hl1'
      refine ⟨hx.1, hx.2.1, ?_⟩
      rw [hx.2.2]
      simp [hexp]
    · rw [if_neg hexp]
      have hupv : (UpdatePlayerView st.grid heap c now).1 = heap :=
        updatePlayerView_no_damage st.grid heap c now hnd
      have hx := ih { grid := st.grid, heap := (UpdatePlayerView st.grid heap c now).1,
                      clients := st.clients, processed := st.processed ++ [c] } hupv hl1'
      refine ⟨hx.1, hx.2.1, ?_⟩
      rw [hx.2.2]
      simp [hexp]

/-! ## Claim theorems: the view tick (`HandleThreadClients`) -/

/--
C1 (counterexample).  With two owned connections, the first holding a dead
player and the second a live, non-expired one, the view tick removes the
first from the client set and *returns*: the second connection is not
processed and receives no batch update this tick, although its player is
neither dead nor expired.
-/
theorem C1_dead_connection_aborts_tick :
    (heapGet [(0, { is_dead := true }), (1, {})] 1).is_dead = false ∧
    GameObject.Expired (heapGet [(0, { is_dead := true }), (1, {})] 1) 10 = false ∧
    (HandleThreadClients (mkGrid 1600 1600 100)
      [(0, { is_dead := true }), (1, {})] [0, 1] 10).processed = [] ∧
    (HandleThreadClients (mkGrid 1600 1600 100)
      [(0, { is_dead := true }), (1, {})] [0, 1] 10).clients = [1] := by
  refine ⟨?_, ?_, ?_, ?_⟩ <;>
    set_option maxRecDepth 40000 in with_unfolding_all decide

/--
C1 (amended).  During a view tick the connections are walked in iteration
order; encountering the first connection whose player is dead erases it
from the client set and returns from the tick function, so connections
later in the order are not processed this tick.  Connections earlier in
the order are processed normally: each non-expired one is sent its batch
(recorded in `processed`).  Stated for a heap with no damaging objects,
so that view processing leaves the heap unchanged.
-/
theorem C1_view_tick_dead_aborts (g : Grid) (heap : Heap) (l1 l2 : List Ptr)
    (cd : Ptr) (now : Int)
    (hnd : ∀ e ∈ heap, e.2.damage = 0)
    (hl1 : ∀ c ∈ l1, (heapGet heap c).is_dead = false)
    (hdead : (heapGet heap cd).is_dead = true) :
    (HandleThreadClients g heap (l1 ++ cd :: l2) now).processed =
      l1.filter (fun c => !((heapGet heap c).Expired now)) ∧
    (HandleThreadClients g heap (l1 ++ cd :: l2) now).clients =
      (l1 ++ cd :: l2).filter (fun d => d ≠ cd) ∧
    (HandleThreadClients g heap (l1 ++ cd :: l2) now).heap = heap := by
  have h := handleClientsLoop_dead_aborts heap now cd l2 hdead
    (heapGet_damage_zero heap hnd) l1
    { grid := g, heap := heap, clients := l1 ++ cd :: l2, processed := [] } rfl hl1
  unfold HandleThreadClients
  exact ⟨by rw [h.2.2]; simp, h.2.1, h.1⟩

/-- Witness for C1 (amended): one live connection ahead of the dead one is
still processed; the one behind it is cut off. -/
theorem C1_view_tick_dead_aborts_witness :
    (HandleThreadClients (mkGrid 1600 1600 100)
      [(0, { is_dead := true }), (1, {}), (2, {})] [1, 0, 2] 10).processed = [1] ∧
    (HandleThreadClients (mkGrid 1600 1600 100)
      [(0, { is_dead := true }), (1, {}), (2, {})] [1, 0, 2] 10).clients = [1, 2] := by
  have h := C1_view_tick_dead_aborts (mkGrid 1600 1600 100)
    [(0, { is_dead := true }), (1, {}), (2, {})] [1] [2] 0 10
    (by decide)
    (by
      intro c hc
      have hc1 : c = 1 := by simpa using hc
      subst hc1
      with_unfolding_all decide)
    (by with_unfolding_all decide)
  exact ⟨h.1.trans (by with_unfolding_all decide),
    h.2.1.trans (by with_unfolding_all decide)⟩

/-! ## Claim theorems: the death grace window (`HandleThreadObjects`) -/

lemma remove_not_mem_cell (g : Grid) (p : Ptr) (obj : GameObject) (hwf : g.WF)
    (hr0 : 0 ≤ obj.row) (hr1 : obj.row < g.rows)
    (hc0 : 0 ≤ obj.col) (hc1 : obj.col < g.cols) :
    p ∉ getCell (g.Remove p obj).cells obj.row.toNat obj.col.toNat := by
  obtain ⟨h1, h2, h3, h4, h5, h6, h7⟩ := hwf
  unfold Grid.Remove
  rw [if_neg (by push_neg; exact ⟨hr1, hc1, hr0, hc0⟩)]
  have hrlen : obj.row.toNat < g.cells.length := by rw [h6]; omega
  have hclen : obj.col.toNat < (g.cells.getD obj.row.toNat []).length := by
    have hmem : g.cells.getD obj.row.toNat [] ∈ g.cells := by
      rw [List.getD_eq_getElem g.cells [] hrlen]
      exact List.getElem_mem hrlen
    rw [h7 _ hmem]; omega
  rw [getCell_setCell_self _ _ _ _ hrlen hclen]
  simp [cellErase]

/--
C2 (counterexample).  A snowball that died at `t = 5000` (grace window
until `t = 6000`) is already gone from both the worker's object map and
the grid after the object tick at `t = 5030`: the tick removes dead
objects immediately, it does not keep them indexed for the 1000 ms
window.
-/
theorem C2_dead_snowball_removed_within_grace :
    ((5030 : Int) - 5000 < 1000) ∧
    gridHasPtr ((mkGrid 1600 1600 100).Insert 0
      { x := 500, y := 500, isSnowball := true }).1 0 = true ∧
    gridHasPtr (HandleThreadObjects
      ((mkGrid 1600 1600 100).Insert 0 { x := 500, y := 500, isSnowball := true }).1
      [(0, some { ((mkGrid 1600 1600 100).Insert 0
          { x := 500, y := 500, isSnowball := true }).2 with
        is_dead := true, time_update := 5000, life_length := 1000 })] 5030).1 0 = false ∧
    (HandleThreadObjects
      ((mkGrid 1600 1600 100).Insert 0 { x := 500, y := 500, isSnowball := true }).1
      [(0, some { ((mkGrid 1600 1600 100).Insert 0
          { x := 500, y := 500, isSnowball := true }).2 with
        is_dead := true, time_update := 5000, life_length := 1000 })] 5030).2 = [] := by
  refine ⟨?_, ?_, ?_, ?_⟩ <;>
    set_option maxRecDepth 100000 in with_unfolding_all decide

/--
C2 (amended).  The death grace window does not govern grid residency.
(a) The owning worker's object tick removes a dead snowball from the
object map and from its recorded grid cell at the first tick after the
death, for every tick instant `now` — within the grace window or after
it.  (b) The owning worker's view tick, on meeting a dead player at the
head of the iteration order, removes the connection from the client set
but leaves the grid untouched: the dead player stays indexed until its
socket closes.  The 1000 ms window only controls how long a dead object
that is still indexed keeps being included in view batches.
-/
theorem C2_death_grace_characterization (g : Grid) (p : Ptr) (obj : GameObject)
    (now : Int) (hwf : g.WF) (hdead : obj.is_dead = true)
    (hr0 : 0 ≤ obj.row) (hr1 : obj.row < g.rows)
    (hc0 : 0 ≤ obj.col) (hc1 : obj.col < g.cols)
    (g2 : Grid) (heap : Heap) (c : Ptr) (rest : List Ptr)
    (hpdead : (heapGet heap c).is_dead = true) :
    (HandleThreadObjects g [(p, some obj)] now).2 = [] ∧
    (HandleThreadObjects g [(p, some obj)] now).1 = g.Remove p obj ∧
    p ∉ getCell (HandleThreadObjects g [(p, some obj)] now).1.cells
      obj.row.toNat obj.col.toNat ∧
    (HandleThreadClients g2 heap (c :: rest) now).grid = g2 ∧
    (HandleThreadClients g2 heap (c :: rest) now).clients =
      (c :: rest).filter (fun d => d ≠ c) := by
  have hobj : HandleThreadObjects g [(p, some obj)] now = (g.Remove p obj, []) := by
    rw [HandleThreadObjects, hdead]
    rw [if_pos rfl]
    rw [HandleThreadObjects]
  have hview : HandleThreadClients g2 heap (c :: rest) now =
      { grid := g2, heap := heap, clients := (c :: rest).filter (fun d => d ≠ c),
        processed := [] } := by
    unfold HandleThreadClients
    rw [handleClientsLoop]
    rw [if_pos hpdead]
  refine ⟨by rw [hobj], by rw [hobj], ?_, by rw [hview], by rw [hview]⟩
  rw [hobj]
  exact remove_not_mem_cell g p obj hwf hr0 hr1 hc0 hc1

/-- Witness for C2 (amended): concrete dead snowball and dead player. -/
theorem C2_death_grace_characterization_witness :
    (HandleThreadObjects
      ((mkGrid 100 100 100).Insert 6 { x := 50, y := 50, isSnowball := true }).1
      [(6, some { ((mkGrid 100 100 100).Insert 6
          { x := 50, y := 50, isSnowball := true }).2 with is_dead := true })] 42).2 = [] ∧
    (HandleThreadClients (mkGrid 100 100 100) [(3, { is_dead := true })]
      [3, 7] 42).grid = mkGrid 100 100 100 := by
  have h := C2_death_grace_characterization
    ((mkGrid 100 100 100).Insert 6 { x := 50, y := 50, isSnowball := true }).1
    6
    { ((mkGrid 100 100 100).Insert 6 { x := 50, y := 50, isSnowball := true }).2 with
      is_dead := true }
    42
    (wf_insert (mkGrid 100 100 100) 6 { x := 50, y := 50, isSnowball := true }
      (mkGrid_WF 100 100 100 (by decide) (by decide) (by decide)))
    rfl
    (by with_unfolding_all decide) (by with_unfolding_all decide)
    (by with_unfolding_all decide) (by with_unfolding_all decide)
    (mkGrid 100 100 100) [(3, { is_dead := true })] 3 [7]
    (by with_unfolding_all decide)
  exact ⟨h.1, h.2.2.2.1⟩

end Snowfight
